import Mathlib

/-!
Verification of the Privy plugin (policy rule editor, config validator and the
eight action handlers) against its natural-language specification.

The JavaScript/TypeScript sources are shallowly embedded: pure helpers become
Lean functions; the outcome of each fallible collaborator (config validation,
remote REST calls) is passed in as an `Except String` value, so a thrown JS
error appears as `.error msg` and the handler bodies are total Lean functions.
The in-place mutation performed by the policy editors (a consequence of the
shallow array spread) is made explicit by a second function per editor that
returns the state of the *input* policy after the call.
-/

/- ---------------------------------------------------------------- -/
/- JS primitives used by the sources                                 -/
/- ---------------------------------------------------------------- -/

/-- Whether `sub` occurs at the start of `s` (char-list form). Helper for the
embedding of JS `String.prototype.includes`. -/
def charsStartWith : List Char → List Char → Bool
  | [], _ => true
  | _ :: _, [] => false
  | a :: as, b :: bs => a == b && charsStartWith as bs

/-- Whether `sub` occurs anywhere in the char list. Helper for the embedding of
JS `String.prototype.includes`. -/
def charsContain (sub : List Char) : List Char → Bool
  | [] => charsStartWith sub []
  | c :: rest => charsStartWith sub (c :: rest) || charsContain sub rest

/-- Embedding of JS `s.includes(sub)`. -/
def jsIncludes (s sub : String) : Bool :=
  charsContain sub.toList s.toList

/-- Embedding of JS `s.toLowerCase()` (ASCII case mapping, which covers every
string this plugin compares: chain-type names). -/
def jsToLowerCase (s : String) : String :=
  String.mk (s.data.map Char.toLower)

/-- JS truthiness of an optional string: `undefined`, `null` and `""` are falsy. -/
def jsTruthyStr : Option String → Bool
  | none => false
  | some s => !(s == "")

/-- JS `x || d` for an optional string `x`: an absent or empty `x` falls through
to the default `d`. -/
def jsOrStr (o : Option String) (d : String) : String :=
  match o with
  | some s => if s == "" then d else s
  | none => d

/-- JS `x || undefined` for an optional string: an empty string collapses to
`undefined` (used for the optional Monad settings in `validatePrivyConfig`). -/
def jsOrUndefined : Option String → Option String
  | some s => if s == "" then none else some s
  | none => none

/-- JS `s.replace(pat, rep)` with a string pattern: only the first occurrence is
replaced (used by the PRIVY_GET_POLICY handler on rule names). -/
def jsReplaceFirst (s pat rep : String) : String :=
  match s.splitOn pat with
  | [] => s
  | [x] => x
  | x :: rest => x ++ rep ++ String.intercalate pat rest

/- ---------------------------------------------------------------- -/
/- Data model (types/policies.ts and types/wallets.ts shapes, as     -/
/- used by environment.ts and index.ts)                              -/
/- ---------------------------------------------------------------- -/

/-- A JS value that can appear in a policy condition's `value` slot
(`string | number | string[]`, per the annotation inside `denylistToken`). -/
inductive CondValue where
  | str (s : String)
  | num (n : Int)
  | arr (xs : List String)
deriving DecidableEq

/-- JS strict equality `v === t` of a condition value against a string: a number
or an array is never strictly equal to a string. -/
def condValueEqStr : CondValue → String → Bool
  | .str s, t => s == t
  | _, _ => false

/-- One comparison in a policy rule (`field_source`, `field`, `operator`,
`value`). -/
structure PrivyCondition where
  field_source : String
  field : String
  operator : String
  value : CondValue
deriving DecidableEq

/-- A policy rule: display name, optional condition list, ALLOW/DENY action.
`conditions` is optional because `denylistToken` guards it with `?.`. -/
structure PrivyRule where
  name : String
  conditions : Option (List PrivyCondition)
  action : String
deriving DecidableEq

/-- The rules of a policy scoped to one wallet method. -/
structure PrivyMethodRule where
  method : String
  rules : List PrivyRule
deriving DecidableEq

/-- A policy as fetched from the remote service. `method_rules` is optional
because both editors guard it (`existingPolicy.method_rules ? ... : []`). -/
structure PrivyPolicyResponse where
  id : String
  name : String
  method_rules : Option (List PrivyMethodRule)
deriving DecidableEq

/-- The editable policy body the editors produce and `updatePolicy` PATCHes. -/
structure PrivyUpdatePolicy where
  name : String
  method_rules : List PrivyMethodRule
deriving DecidableEq

/- ---------------------------------------------------------------- -/
/- Policy rule editor (environment.ts, allowlistToken/denylistToken) -/
/- ---------------------------------------------------------------- -/

/-- The new rule `allowlistToken` constructs (environment.ts lines 214-225):
named `Allowlist <tokenName>`, one condition
`ethereum_transaction.to eq <tokenAddress>`, action ALLOW. -/
def allowlistNewRule (tokenName tokenAddress : String) : PrivyRule :=
  { name := "Allowlist " ++ tokenName
  , conditions := some [{ field_source := "ethereum_transaction", field := "to"
                        , operator := "eq", value := CondValue.str tokenAddress }]
  , action := "ALLOW" }

/-- Returned body of `allowlistToken` (environment.ts lines 213-239): copies
`name`, spreads `method_rules` (empty when absent), and pushes the new rule onto
the first MethodRule's `rules` when a first MethodRule exists. -/
def allowlistToken (existingPolicy : PrivyPolicyResponse)
    (tokenName tokenAddress : String) : PrivyUpdatePolicy :=
  let newRule := allowlistNewRule tokenName tokenAddress
  let mrs := match existingPolicy.method_rules with
    | some l => l
    | none => []
  match mrs with
  | [] => { name := existingPolicy.name, method_rules := [] }
  | mr0 :: rest =>
      { name := existingPolicy.name
      , method_rules := { mr0 with rules := mr0.rules ++ [newRule] } :: rest }

/-- State of the *input* policy after `allowlistToken` returns. The spread
`[...existingPolicy.method_rules]` copies only the outer array and shares the
MethodRule objects with the input, so the `push` on `method_rules[0].rules` is
visible through the input policy as well. -/
def allowlistTokenInputAfter (p : PrivyPolicyResponse)
    (tokenName tokenAddress : String) : PrivyPolicyResponse :=
  match p.method_rules with
  | none => p
  | some [] => p
  | some (mr0 :: rest) =>
      let mr0After := { mr0 with rules := mr0.rules ++ [allowlistNewRule tokenName tokenAddress] }
      { p with method_rules := some (mr0After :: rest) }

/-- The per-rule test inside `denylistToken`'s filter (environment.ts lines
258-267): does some condition of the rule satisfy
`field_source === "ethereum_transaction" && field === "to" && value === tokenAddress`?
`rule.conditions?.some(...)` yields `undefined` (falsy) when `conditions` is
absent. The `operator` slot is not inspected. -/
def isTokenRule (tokenAddress : String) (rule : PrivyRule) : Bool :=
  match rule.conditions with
  | none => false
  | some conds => conds.any fun c =>
      c.field_source == "ethereum_transaction" && c.field == "to"
        && condValueEqStr c.value tokenAddress

/-- Returned body of `denylistToken` (environment.ts lines 249-271): copies
`name`, spreads `method_rules`, and replaces the first MethodRule's `rules` by
the rules that are not for the given token address. `tokenName` is accepted but
never read. -/
def denylistToken (existingPolicy : PrivyPolicyResponse)
    (tokenName tokenAddress : String) : PrivyUpdatePolicy :=
  let mrs := match existingPolicy.method_rules with
    | some l => l
    | none => []
  match mrs with
  | [] => { name := existingPolicy.name, method_rules := [] }
  | mr0 :: rest =>
      { name := existingPolicy.name
      , method_rules :=
          { mr0 with rules := mr0.rules.filter (fun r => !(isTokenRule tokenAddress r)) } :: rest }

/-- State of the *input* policy after `denylistToken` returns: the shallow spread
shares the first MethodRule object, so assigning its `rules` property replaces
the input's first rule list by the filtered one as well. -/
def denylistTokenInputAfter (p : PrivyPolicyResponse)
    (tokenName tokenAddress : String) : PrivyPolicyResponse :=
  match p.method_rules with
  | none => p
  | some [] => p
  | some (mr0 :: rest) =>
      let mr0After := { mr0 with rules := mr0.rules.filter (fun r => !(isTokenRule tokenAddress r)) }
      { p with method_rules := some (mr0After :: rest) }

/-- Reading an update body back as a policy response, as the fetch at the start
of a second `updatePolicy` call would return it (the body just PATCHed). -/
def updateAsResponse (id : String) (u : PrivyUpdatePolicy) : PrivyPolicyResponse :=
  { id := id, name := u.name, method_rules := some u.method_rules }

/- ---------------------------------------------------------------- -/
/- Config validator (environment.ts, validatePrivyConfig)            -/
/- ---------------------------------------------------------------- -/

/-- The validated configuration (environment.ts lines 6-11). -/
structure PrivyConfig where
  PRIVY_APP_ID : String
  PRIVY_APP_SECRET : String
  PRIVY_MONAD_RPC_URL : Option String
  PRIVY_MONAD_CHAIN_ID : Option String
deriving DecidableEq

/-- Embedding of `validatePrivyConfig` (environment.ts lines 20-49), applied to
the values the four `runtime.getSetting` reads return. A thrown `Error` appears
as `.error` with the error's message. The function performs no I/O in the
source either: it only reads settings. -/
def validatePrivyConfig (appIdS appSecretS rpcS chainIdS : Option String) :
    Except String PrivyConfig :=
  if !(jsTruthyStr appIdS) then .error "Privy App ID is required"
  else if !(jsTruthyStr appSecretS) then .error "Privy App Secret is required"
  else .ok
    { PRIVY_APP_ID := appIdS.getD ""
    , PRIVY_APP_SECRET := appSecretS.getD ""
    , PRIVY_MONAD_RPC_URL := jsOrUndefined rpcS
    , PRIVY_MONAD_CHAIN_ID := jsOrUndefined chainIdS }

/- ---------------------------------------------------------------- -/
/- Wallet service data shapes (types/wallets.ts, as used)            -/
/- ---------------------------------------------------------------- -/

/-- Body of the wallet-creation request the PRIVY_CREATE_WALLET handler builds. -/
structure PrivyCreateWalletRequest where
  chain_type : String
  policy_ids : Option (List String)
deriving DecidableEq

/-- A wallet as returned by the remote wallet service. -/
structure PrivyCreateWalletResponse where
  id : String
  address : String
  chain_type : String
deriving DecidableEq

/-- Response of the send-transaction endpoint. -/
structure PrivyTransactionResponse where
  hash : String
deriving DecidableEq

/-- Response of the sign endpoint. -/
structure PrivySignatureResponse where
  signature : String
deriving DecidableEq

/-- The `success`/`response` part of the result every handler returns to the
agent framework (the optional `data` payload is not needed by any claim). -/
structure ActionResult where
  success : Bool
  response : String
deriving DecidableEq

/- ---------------------------------------------------------------- -/
/- Action handlers (index.ts). Each fallible collaborator's outcome  -/
/- is a parameter: `config` is the outcome of validatePrivyConfig,   -/
/- `remote` the outcome of the service call the handler makes; a     -/
/- thrown error appears as `.error` and lands in the handler's       -/
/- single catch block.                                               -/
/- ---------------------------------------------------------------- -/

/-- Message of the TypeError a JS engine raises when `flatMap` is read off
`undefined` (`policyData.method_rules.flatMap` in the PRIVY_GET_POLICY handler
has no guard); the exact wording is engine-defined. -/
def typeErrorFlatMapUndefined : String :=
  "Cannot read properties of undefined (reading \x27flatMap\x27)"

/-- Embedding of the PRIVY_GET_POLICY handler (index.ts lines 70-114). -/
def getPolicyHandler (config : Except String PrivyConfig)
    (defaultPolicyId defaultPolicyName : String)
    (policyIdOpt nameOpt : Option String)
    (remote : Except String PrivyPolicyResponse) : ActionResult :=
  match config with
  | .error m => { success := false, response := "Error retrieving policy: " ++ m }
  | .ok _ =>
    let policyId := jsOrStr policyIdOpt defaultPolicyId
    let _name := jsOrStr nameOpt (jsOrStr (some defaultPolicyName) "DefaultPolicy")
    if policyId == "" then
      { success := false
      , response := "Policy ID is required. Please specify a policy ID or set a default policy ID in the configuration." }
    else
      match remote with
      | .error m => { success := false, response := "Error retrieving policy: " ++ m }
      | .ok policyData =>
        match policyData.method_rules with
        | none =>
            { success := false
            , response := "Error retrieving policy: " ++ typeErrorFlatMapUndefined }
        | some mrs =>
          let ruleNames := mrs.flatMap fun methodRule =>
            methodRule.rules.map fun rule => jsReplaceFirst rule.name "Allowlist " ""
          { success := true
          , response := "These are tokens that are allowed for transactions: "
              ++ String.intercalate ", " ruleNames
              ++ ". If the token you want to use is not on this list, you will need to request it to be added." }

/-- Embedding of the PRIVY_CREATE_POLICY handler (index.ts lines 131-159). -/
def createPolicyHandler (config : Except String PrivyConfig)
    (defaultPolicyName : String) (nameOpt : Option String)
    (remote : Except String PrivyPolicyResponse) : ActionResult :=
  match config with
  | .error m => { success := false, response := "Error creating policy: " ++ m }
  | .ok _ =>
    let _name := jsOrStr nameOpt (jsOrStr (some defaultPolicyName) "DefaultPolicy")
    match remote with
    | .error m => { success := false, response := "Error creating policy: " ++ m }
    | .ok policyData =>
        { success := true
        , response := "Successfully created a new compliance policy with ID: "
            ++ policyData.id ++ ". You can now add approved tokens to this policy." }

/-- Embedding of the PRIVY_UPDATE_POLICY handler (index.ts lines 176-224). -/
def updatePolicyHandler (config : Except String PrivyConfig)
    (defaultPolicyId defaultPolicyName : String)
    (policyIdOpt nameOpt tokenNameOpt tokenAddressOpt : Option String)
    (removeOpt : Option Bool)
    (remote : Except String PrivyPolicyResponse) : ActionResult :=
  match config with
  | .error m => { success := false, response := "Error updating policy: " ++ m }
  | .ok _ =>
    let policyId := jsOrStr policyIdOpt defaultPolicyId
    let _name := jsOrStr nameOpt (jsOrStr (some defaultPolicyName) "DefaultPolicy")
    let tokenName := tokenNameOpt.getD ""
    let tokenAddress := tokenAddressOpt.getD ""
    let remove := removeOpt == some true
    if policyId == "" then
      { success := false
      , response := "Policy ID is required. Please specify a policy ID or set a default policy ID in the configuration." }
    else if tokenName == "" || tokenAddress == "" then
      { success := false
      , response := "Token name and address are required for policy updates." }
    else
      match remote with
      | .error m => { success := false, response := "Error updating policy: " ++ m }
      | .ok _ =>
        let act := if remove then "removed from" else "added to"
        { success := true
        , response := "Successfully " ++ act ++ " the policy: token " ++ tokenName
            ++ " (" ++ tokenAddress ++ ") has been " ++ act ++ " the allowlist." }

/-- Embedding of the PRIVY_CREATE_WALLET handler (index.ts lines 241-294).
Returns the wallet-creation request issued to the wallet client (`none` when no
request is made) together with the handler result. -/
def createWalletHandler (config : Except String PrivyConfig)
    (defaultPolicyId : String) (chainTypeOpt policyIdOpt : Option String)
    (remote : Except String PrivyCreateWalletResponse) :
    Option PrivyCreateWalletRequest × ActionResult :=
  match config with
  | .error m => (none, { success := false, response := "Error creating wallet: " ++ m })
  | .ok _ =>
    let chainType := match chainTypeOpt with
      | none => "ethereum"
      | some s => if jsToLowerCase s == "" then "ethereum" else jsToLowerCase s
    if !(chainType == "ethereum" || chainType == "solana" || chainType == "monad") then
      (none, { success := false
             , response := "Invalid chain type. Supported chain types are: ethereum, solana, monad." })
    else
      let apiChainType := if chainType == "monad" then "ethereum" else chainType
      let policyId := jsOrStr policyIdOpt defaultPolicyId
      let walletRequest : PrivyCreateWalletRequest :=
        { chain_type := apiChainType
        , policy_ids := if policyId == "" then none else some [policyId] }
      match remote with
      | .error m =>
          (some walletRequest, { success := false, response := "Error creating wallet: " ++ m })
      | .ok walletData =>
        let responseText :=
          if chainType == "monad" then
            "Successfully created a new Monad wallet with address: " ++ walletData.address
              ++ ". This wallet is compatible with the Monad blockchain."
          else
            "Successfully created a new wallet with address: " ++ walletData.address
        (some walletRequest, { success := true, response := responseText })

/-- Embedding of the PRIVY_UPDATE_WALLET handler (index.ts lines 311-358). -/
def updateWalletHandler (config : Except String PrivyConfig)
    (walletIdOpt : Option String) (policyIdsOpt : Option (List String))
    (remote : Except String PrivyCreateWalletResponse) : ActionResult :=
  match config with
  | .error m => { success := false, response := "Error updating wallet: " ++ m }
  | .ok _ =>
    if walletIdOpt.getD "" == "" then
      { success := false, response := "Wallet ID is required to update a wallet." }
    else
      match policyIdsOpt with
      | none =>
          { success := false
          , response := "At least one policy ID is required for wallet updates." }
      | some [] =>
          { success := false
          , response := "At least one policy ID is required for wallet updates." }
      | some (_ :: _) =>
        match remote with
        | .error m => { success := false, response := "Error updating wallet: " ++ m }
        | .ok _ =>
            { success := true
            , response := "Successfully updated wallet policies. The wallet now follows the specified compliance policies." }

/-- Embedding of the PRIVY_GET_WALLETS handler (index.ts lines 375-412). -/
def getWalletsHandler (config : Except String PrivyConfig)
    (remote : Except String (List PrivyCreateWalletResponse)) : ActionResult :=
  match config with
  | .error m => { success := false, response := "Error retrieving wallets: " ++ m }
  | .ok _ =>
    match remote with
    | .error m => { success := false, response := "Error retrieving wallets: " ++ m }
    | .ok walletsData =>
      if walletsData.isEmpty then
        { success := true
        , response := "No wallets found. You can create a new wallet with the PRIVY_CREATE_WALLET action." }
      else
        let walletList := String.intercalate "\n" (walletsData.map fun w =>
          "Wallet " ++ w.id ++ ": " ++ w.address ++ " (" ++ w.chain_type ++ ")")
        { success := true, response := "Here are your available wallets:\n" ++ walletList }

/-- The catch block of PRIVY_SEND_TRANSACTION (index.ts lines 467-480): an error
message containing "policy" or "denied" is rewritten to the compliance-policy
wording, any other message gets the generic prefix. -/
def sendTxErrorResult (m : String) : ActionResult :=
  if jsIncludes m "policy" || jsIncludes m "denied" then
    { success := false
    , response := "Transaction failed due to policy restrictions: " ++ m
        ++ ". This transaction may involve tokens or addresses that aren\x27t allowed by your wallet\x27s compliance policies." }
  else
    { success := false, response := "Error sending transaction: " ++ m }

/-- Embedding of the PRIVY_SEND_TRANSACTION handler (index.ts lines 429-481). -/
def sendTransactionHandler (config : Except String PrivyConfig)
    (walletIdOpt toOpt valueOpt dataOpt : Option String)
    (remote : Except String PrivyTransactionResponse) : ActionResult :=
  match config with
  | .error m => sendTxErrorResult m
  | .ok _ =>
    let _data := dataOpt.getD ""
    if walletIdOpt.getD "" == "" || toOpt.getD "" == "" || valueOpt.getD "" == "" then
      { success := false
      , response := "Wallet ID, recipient address, and value are required for transactions." }
    else
      match remote with
      | .error m => sendTxErrorResult m
      | .ok txData =>
          { success := true
          , response := "Transaction sent successfully! Transaction hash: " ++ txData.hash }

/-- The catch block of PRIVY_SIGN_TRANSACTION (index.ts lines 527-540). -/
def signTxErrorResult (m : String) : ActionResult :=
  if jsIncludes m "policy" || jsIncludes m "denied" then
    { success := false
    , response := "Signing failed due to policy restrictions: " ++ m
        ++ ". This operation may not be allowed by your wallet\x27s compliance policies." }
  else
    { success := false, response := "Error signing transaction: " ++ m }

/-- Embedding of the PRIVY_SIGN_TRANSACTION handler (index.ts lines 498-541). -/
def signTransactionHandler (config : Except String PrivyConfig)
    (walletIdOpt msgOpt : Option String)
    (remote : Except String PrivySignatureResponse) : ActionResult :=
  match config with
  | .error m => signTxErrorResult m
  | .ok _ =>
    if walletIdOpt.getD "" == "" || msgOpt.getD "" == "" then
      { success := false
      , response := "Wallet ID and message are required for signing." }
    else
      match remote with
      | .error m => signTxErrorResult m
      | .ok signData =>
          { success := true
          , response := "Transaction signed successfully! Signature: " ++ signData.signature }

/- ---------------------------------------------------------------- -/
/- Concrete sample data (the running example of the spec, section 8) -/
/- ---------------------------------------------------------------- -/

/-- The USDT allowlist rule of the spec's running example. -/
def sampleUSDTRule : PrivyRule :=
  { name := "Allowlist USDT"
  , conditions := some [{ field_source := "ethereum_transaction", field := "to"
                        , operator := "eq", value := CondValue.str "0xAAA" }]
  , action := "ALLOW" }

/-- The single MethodRule of the spec's running example. -/
def sampleMR0 : PrivyMethodRule :=
  { method := "eth_sendTransaction", rules := [sampleUSDTRule] }

/-- The policy of the spec's running example. -/
def samplePolicy : PrivyPolicyResponse :=
  { id := "pol1", name := "DefaultPolicy", method_rules := some [sampleMR0] }

/-- A policy with zero MethodRule entries. -/
def emptyPolicy : PrivyPolicyResponse :=
  { id := "pol0", name := "EmptyPolicy", method_rules := some [] }

/-- A concrete validated configuration. -/
def sampleConfig : PrivyConfig :=
  { PRIVY_APP_ID := "app", PRIVY_APP_SECRET := "secret"
  , PRIVY_MONAD_RPC_URL := none, PRIVY_MONAD_CHAIN_ID := none }

/-- A concrete wallet response. -/
def sampleWallet : PrivyCreateWalletResponse :=
  { id := "w1", address := "0xW", chain_type := "ethereum" }

/- ---------------------------------------------------------------- -/
/- Generic helper lemmas                                             -/
/- ---------------------------------------------------------------- -/

/-- A prefix occurrence survives appending on the right. -/
theorem charsStartWith_append (sub l l2 : List Char)
    (h : charsStartWith sub l = true) : charsStartWith sub (l ++ l2) = true := by
  induction sub generalizing l with
  | nil => rfl
  | cons c cs ih =>
    cases l with
    | nil => simp [charsStartWith] at h
    | cons x xs =>
      simp only [charsStartWith, Bool.and_eq_true] at h
      simp only [List.cons_append, charsStartWith, Bool.and_eq_true]
      exact ⟨h.1, ih xs h.2⟩

/-- A substring occurrence survives appending on the right. -/
theorem charsContain_append (sub l l2 : List Char)
    (h : charsContain sub l = true) : charsContain sub (l ++ l2) = true := by
  induction l with
  | nil =>
    cases sub with
    | nil =>
      cases l2 with
      | nil => rfl
      | cons y ys => rfl
    | cons c cs => simp [charsContain, charsStartWith] at h
  | cons x xs ih =>
    simp only [charsContain, Bool.or_eq_true] at h
    simp only [List.cons_append, charsContain, Bool.or_eq_true]
    rcases h with h | h
    · exact Or.inl (charsStartWith_append _ _ _ h)
    · exact Or.inr (ih h)

/-- `jsIncludes` is stable under extending the searched string on the right. -/
theorem jsIncludes_append (s t sub : String) (h : jsIncludes s sub = true) :
    jsIncludes (s ++ t) sub = true := by
  have hdata : (s ++ t).toList = s.toList ++ t.toList := String.data_append s t
  simp only [jsIncludes, hdata]
  exact charsContain_append _ _ _ h

/-- The two elements appended at the end of a list sit at the two distinct
positions `l.length` and `l.length + 1`. -/
theorem getElem_append_pair {α : Type} (l : List α) (a b : α) :
    (l ++ [a, b])[l.length]? = some a ∧ (l ++ [a, b])[l.length + 1]? = some b := by
  induction l with
  | nil => exact ⟨rfl, rfl⟩
  | cons x xs ih => simpa using ih

/-- Every arm of the send-transaction catch block reports failure. -/
theorem sendTxErrorResult_success (m : String) : (sendTxErrorResult m).success = false := by
  unfold sendTxErrorResult
  split <;> rfl

/-- Every arm of the sign-transaction catch block reports failure. -/
theorem signTxErrorResult_success (m : String) : (signTxErrorResult m).success = false := by
  unfold signTxErrorResult
  split <;> rfl

/- ---------------------------------------------------------------- -/
/- Claim theorems                                                    -/
/- ---------------------------------------------------------------- -/

/-- The rule claim C1 describes, written from the claim's words: named
`"Allowlist " + tokenName`, exactly one condition with field_source
`ethereum_transaction`, field `to`, operator `eq`, value the token address, and
action ALLOW. Compared below with what `allowlistToken` builds. -/
def claimedAllowRule (tokenName tokenAddress : String) : PrivyRule :=
  { name := "Allowlist " ++ tokenName
  , conditions := some [{ field_source := "ethereum_transaction", field := "to"
                        , operator := "eq", value := CondValue.str tokenAddress }]
  , action := "ALLOW" }

/-- Claim C1: for every policy with a first MethodRule, `allowlistToken` keeps
the policy name and returns the first MethodRule with exactly the claimed rule
appended at the end of its rule list; all pre-existing rules and the remaining
MethodRules are preserved in their original order. -/
theorem allowlistToken_appends_rule (p : PrivyPolicyResponse)
    (mr0 : PrivyMethodRule) (rest : List PrivyMethodRule)
    (tokenName tokenAddress : String)
    (h : p.method_rules = some (mr0 :: rest)) :
    (allowlistToken p tokenName tokenAddress).name = p.name
    ∧ (allowlistToken p tokenName tokenAddress).method_rules
        = { mr0 with rules := mr0.rules ++ [claimedAllowRule tokenName tokenAddress] } :: rest := by
  unfold allowlistToken allowlistNewRule claimedAllowRule
  rw [h]
  exact ⟨rfl, rfl⟩

/-- Witness for C1 at the spec's running example: the USDC rule lands behind the
existing USDT rule. -/
theorem allowlistToken_appends_rule_witness :
    samplePolicy.method_rules = some (sampleMR0 :: [])
    ∧ ((allowlistToken samplePolicy "USDC" "0xBBB").name = samplePolicy.name
        ∧ (allowlistToken samplePolicy "USDC" "0xBBB").method_rules
            = { sampleMR0 with rules := sampleMR0.rules ++ [claimedAllowRule "USDC" "0xBBB"] } :: []) :=
  ⟨rfl, allowlistToken_appends_rule samplePolicy sampleMR0 [] "USDC" "0xBBB" rfl⟩

/-- The removal predicate claim C2 describes, written from the claim's words:
the rule has at least one condition with field_source `ethereum_transaction`,
field `to`, and value equal to the token address; the rule's display name, the
condition's operator and the supplied token name play no role. -/
def claimedDenyMatch (tokenAddress : String) (r : PrivyRule) : Bool :=
  (r.conditions.getD []).any fun c =>
    c.field_source == "ethereum_transaction" && c.field == "to"
      && condValueEqStr c.value tokenAddress

/-- Claim C2: for every policy with a first MethodRule, `denylistToken` removes
from the first MethodRule's rule list exactly the rules matching the claimed
address predicate, keeps the rest in original order, and ignores the supplied
token name entirely. -/
theorem denylistToken_filters_by_address (p : PrivyPolicyResponse)
    (mr0 : PrivyMethodRule) (rest : List PrivyMethodRule)
    (tokenName tokenName2 tokenAddress : String)
    (h : p.method_rules = some (mr0 :: rest)) :
    (denylistToken p tokenName tokenAddress).method_rules
      = { mr0 with rules := mr0.rules.filter (fun r => !(claimedDenyMatch tokenAddress r)) } :: rest
    ∧ denylistToken p tokenName tokenAddress = denylistToken p tokenName2 tokenAddress := by
  have hfun : (fun r => !(claimedDenyMatch tokenAddress r))
      = (fun r => !(isTokenRule tokenAddress r)) := by
    funext r
    cases hc : r.conditions <;> simp [claimedDenyMatch, isTokenRule, hc]
  constructor
  · rw [hfun]
    unfold denylistToken
    rw [h]
  · rfl

/-- Witness for C2 at the spec's running example: denylisting `0xAAA` empties
the rule list, and the token name is irrelevant. -/
theorem denylistToken_filters_by_address_witness :
    samplePolicy.method_rules = some (sampleMR0 :: [])
    ∧ ((denylistToken samplePolicy "USDT" "0xAAA").method_rules
        = { sampleMR0 with rules := sampleMR0.rules.filter (fun r => !(claimedDenyMatch "0xAAA" r)) } :: []
      ∧ denylistToken samplePolicy "USDT" "0xAAA" = denylistToken samplePolicy "SomeOtherName" "0xAAA") :=
  ⟨rfl, denylistToken_filters_by_address samplePolicy sampleMR0 [] "USDT" "SomeOtherName" "0xAAA" rfl⟩

/-- Claim C3 (refuted, code bug): the editors are not pure in their input. The
source comments say a deep copy is taken, but the spread copies only the outer
array and shares the MethodRule objects, so at the spec's running-example
policy `allowlistToken` grows and `denylistToken` replaces the input policy's
first rule list in place: the input policy is left changed. -/
theorem editors_mutate_input :
    allowlistTokenInputAfter samplePolicy "USDC" "0xBBB" ≠ samplePolicy
    ∧ denylistTokenInputAfter samplePolicy "USDT" "0xAAA" ≠ samplePolicy :=
  ⟨by decide, by decide⟩

/-- Claim C4: on a policy whose method_rules list is empty, both editors return
a body with the original name and the original (empty) method_rules list -- no
rule list is created, no error is raised (the embedding is a total function,
as is the guarded source) -- and the input policy is not even mutated. -/
theorem emptyMethodRules_silent_noop (p : PrivyPolicyResponse)
    (tokenName tokenAddress : String) (h : p.method_rules = some []) :
    allowlistToken p tokenName tokenAddress = { name := p.name, method_rules := [] }
    ∧ denylistToken p tokenName tokenAddress = { name := p.name, method_rules := [] }
    ∧ allowlistTokenInputAfter p tokenName tokenAddress = p
    ∧ denylistTokenInputAfter p tokenName tokenAddress = p := by
  unfold allowlistToken denylistToken allowlistTokenInputAfter denylistTokenInputAfter
  rw [h]
  exact ⟨rfl, rfl, rfl, rfl⟩

/-- Witness for C4 on a concrete empty-method_rules policy. -/
theorem emptyMethodRules_silent_noop_witness :
    emptyPolicy.method_rules = some []
    ∧ (allowlistToken emptyPolicy "USDC" "0xBBB" = { name := emptyPolicy.name, method_rules := [] }
      ∧ denylistToken emptyPolicy "USDC" "0xBBB" = { name := emptyPolicy.name, method_rules := [] }
      ∧ allowlistTokenInputAfter emptyPolicy "USDC" "0xBBB" = emptyPolicy
      ∧ denylistTokenInputAfter emptyPolicy "USDC" "0xBBB" = emptyPolicy) :=
  ⟨rfl, emptyMethodRules_silent_noop emptyPolicy "USDC" "0xBBB" rfl⟩

/-- Rule list of the first MethodRule of an update body (empty when the body
has no MethodRule). -/
def firstRules (u : PrivyUpdatePolicy) : List PrivyRule :=
  match u.method_rules with
  | [] => []
  | mr :: _ => mr.rules

/-- Claim C5: allowlisting the same token twice (the second call reading back
the body produced by the first, as two successive updatePolicy calls do)
appends the same allow rule twice: the resulting first rule list carries the
rule -- whose condition value is the token address -- at the two distinct
positions `length` and `length + 1`. Allowlist deduplicates nothing and is not
idempotent. -/
theorem allowlist_twice_duplicates (p : PrivyPolicyResponse)
    (mr0 : PrivyMethodRule) (rest : List PrivyMethodRule)
    (tokenName tokenAddress pid : String)
    (h : p.method_rules = some (mr0 :: rest)) :
    firstRules (allowlistToken (updateAsResponse pid (allowlistToken p tokenName tokenAddress)) tokenName tokenAddress)
      = mr0.rules ++ [allowlistNewRule tokenName tokenAddress, allowlistNewRule tokenName tokenAddress]
    ∧ (mr0.rules ++ [allowlistNewRule tokenName tokenAddress, allowlistNewRule tokenName tokenAddress])[mr0.rules.length]?
        = some (allowlistNewRule tokenName tokenAddress)
    ∧ (mr0.rules ++ [allowlistNewRule tokenName tokenAddress, allowlistNewRule tokenName tokenAddress])[mr0.rules.length + 1]?
        = some (allowlistNewRule tokenName tokenAddress)
    ∧ mr0.rules.length ≠ mr0.rules.length + 1
    ∧ (allowlistNewRule tokenName tokenAddress).conditions
        = some [{ field_source := "ethereum_transaction", field := "to", operator := "eq", value := CondValue.str tokenAddress }] := by
  refine ⟨?_, (getElem_append_pair _ _ _).1, (getElem_append_pair _ _ _).2, by omega, rfl⟩
  unfold firstRules allowlistToken updateAsResponse
  rw [h]
  simp [List.append_assoc]

/-- Witness for C5 at the spec's running example: the USDC rule appears at
positions 1 and 2 behind the original USDT rule. -/
theorem allowlist_twice_duplicates_witness :
    samplePolicy.method_rules = some (sampleMR0 :: [])
    ∧ firstRules (allowlistToken (updateAsResponse "pol1" (allowlistToken samplePolicy "USDC" "0xBBB")) "USDC" "0xBBB")
        = sampleMR0.rules ++ [allowlistNewRule "USDC" "0xBBB", allowlistNewRule "USDC" "0xBBB"]
    ∧ (sampleMR0.rules ++ [allowlistNewRule "USDC" "0xBBB", allowlistNewRule "USDC" "0xBBB"])[sampleMR0.rules.length]?
        = some (allowlistNewRule "USDC" "0xBBB") := by
  have hmain := allowlist_twice_duplicates samplePolicy sampleMR0 [] "USDC" "0xBBB" "pol1" rfl
  exact ⟨rfl, hmain.1, hmain.2.1⟩

/-- Claim C6: config validation fails whenever PRIVY_APP_ID or PRIVY_APP_SECRET
is absent or empty -- in particular it fails when the secret is absent or empty
even with the app id present (the function makes no remote call: it is a pure
function of the four setting reads) -- while an absent optional Monad setting
is not an error and is returned as absent. -/
theorem validatePrivyConfig_requires_credentials
    (appIdS appSecretS rpcS cidS : Option String) (appId appSecret : String)
    (hid : (appId == "") = false) (hsec : (appSecret == "") = false) :
    (validatePrivyConfig none appSecretS rpcS cidS).isOk = false
    ∧ (validatePrivyConfig (some "") appSecretS rpcS cidS).isOk = false
    ∧ (validatePrivyConfig appIdS none rpcS cidS).isOk = false
    ∧ (validatePrivyConfig appIdS (some "") rpcS cidS).isOk = false
    ∧ validatePrivyConfig (some appId) none rpcS cidS = .error "Privy App Secret is required"
    ∧ validatePrivyConfig (some appId) (some appSecret) rpcS cidS
        = .ok { PRIVY_APP_ID := appId, PRIVY_APP_SECRET := appSecret
              , PRIVY_MONAD_RPC_URL := jsOrUndefined rpcS
              , PRIVY_MONAD_CHAIN_ID := jsOrUndefined cidS }
    ∧ jsOrUndefined none = (none : Option String) := by
  refine ⟨rfl, rfl, ?_, ?_, ?_, ?_, rfl⟩
  · unfold validatePrivyConfig
    split <;> rfl
  · unfold validatePrivyConfig
    split <;> rfl
  · simp [validatePrivyConfig, jsTruthyStr, hid]
  · simp [validatePrivyConfig, jsTruthyStr, hid, hsec]

/-- Witness for C6: concrete settings. A present id with an absent secret is
rejected; full required settings with absent optional ones validate, with the
optional fields absent in the result. -/
theorem validatePrivyConfig_requires_credentials_witness :
    ("app" == "") = false
    ∧ ("secret" == "") = false
    ∧ (validatePrivyConfig (some "app") none (some "http://rpc") none).isOk = false
    ∧ validatePrivyConfig (some "app") (some "secret") none none
        = .ok { PRIVY_APP_ID := "app", PRIVY_APP_SECRET := "secret"
              , PRIVY_MONAD_RPC_URL := none, PRIVY_MONAD_CHAIN_ID := none } :=
  ⟨by decide, by decide,
   (validatePrivyConfig_requires_credentials (some "app") none (some "http://rpc") none
      "app" "secret" (by decide) (by decide)).2.2.1,
   (validatePrivyConfig_requires_credentials (some "app") (some "secret") none none
      "app" "secret" (by decide) (by decide)).2.2.2.2.2.1⟩

/-- Claim C7: every one of the eight action handlers converts any error that
arises inside it -- a failed config validation (first conjunct of each pair) or
a failed remote call (second conjunct), whatever the option values -- into a
returned result with success = false, carrying the error message in the
response where the handler formats it; nothing is thrown past the action
boundary (each embedded handler is a total function into ActionResult). -/
theorem handlers_catch_all_errors (m : String) (cfg : PrivyConfig)
    (dpid dpname : String) (o1 o2 o3 o4 : Option String) (ob : Option Bool)
    (ols : Option (List String))
    (rp : Except String PrivyPolicyResponse)
    (rw : Except String PrivyCreateWalletResponse)
    (rws : Except String (List PrivyCreateWalletResponse))
    (rt : Except String PrivyTransactionResponse)
    (rs : Except String PrivySignatureResponse) :
    getPolicyHandler (.error m) dpid dpname o1 o2 rp
      = { success := false, response := "Error retrieving policy: " ++ m }
    ∧ (getPolicyHandler (.ok cfg) dpid dpname o1 o2 (.error m)).success = false
    ∧ createPolicyHandler (.error m) dpname o1 rp
      = { success := false, response := "Error creating policy: " ++ m }
    ∧ createPolicyHandler (.ok cfg) dpname o1 (.error m)
      = { success := false, response := "Error creating policy: " ++ m }
    ∧ updatePolicyHandler (.error m) dpid dpname o1 o2 o3 o4 ob rp
      = { success := false, response := "Error updating policy: " ++ m }
    ∧ (updatePolicyHandler (.ok cfg) dpid dpname o1 o2 o3 o4 ob (.error m)).success = false
    ∧ createWalletHandler (.error m) dpid o1 o2 rw
      = (none, { success := false, response := "Error creating wallet: " ++ m })
    ∧ ((createWalletHandler (.ok cfg) dpid o1 o2 (.error m)).2).success = false
    ∧ updateWalletHandler (.error m) o1 ols rw
      = { success := false, response := "Error updating wallet: " ++ m }
    ∧ (updateWalletHandler (.ok cfg) o1 ols (.error m)).success = false
    ∧ getWalletsHandler (.error m) rws
      = { success := false, response := "Error retrieving wallets: " ++ m }
    ∧ getWalletsHandler (.error m) (.error m)
      = { success := false, response := "Error retrieving wallets: " ++ m }
    ∧ (getWalletsHandler (.ok cfg) (.error m)).success = false
    ∧ (sendTransactionHandler (.error m) o1 o2 o3 o4 rt).success = false
    ∧ (sendTransactionHandler (.ok cfg) o1 o2 o3 o4 (.error m)).success = false
    ∧ (signTransactionHandler (.error m) o1 o2 rs).success = false
    ∧ (signTransactionHandler (.ok cfg) o1 o2 (.error m)).success = false := by
  refine ⟨rfl, ?_, rfl, rfl, rfl, ?_, rfl, ?_, rfl, ?_, rfl, rfl, rfl, ?_, ?_, ?_, ?_⟩
  · unfold getPolicyHandler
    split
    · rfl
    · dsimp only
      split <;> rfl
  · unfold updatePolicyHandler
    split
    · rfl
    · dsimp only
      split
      · rfl
      · split <;> rfl
  · unfold createWalletHandler
    split
    · rfl
    · dsimp only
      split <;> rfl
  · unfold updateWalletHandler
    split
    · rfl
    · dsimp only
      split
      · rfl
      · split <;> rfl
  · exact sendTxErrorResult_success m
  · unfold sendTransactionHandler
    split
    · exact sendTxErrorResult_success _
    · dsimp only
      split
      · rfl
      · exact sendTxErrorResult_success _
  · exact signTxErrorResult_success m
  · unfold signTransactionHandler
    split
    · exact signTxErrorResult_success _
    · dsimp only
      split
      · rfl
      · exact signTxErrorResult_success _

/-- Claim C8: when the error surfaced to the PRIVY_SEND_TRANSACTION or
PRIVY_SIGN_TRANSACTION handler carries a message containing "policy" or
"denied", the handler returns success false with the user-facing text rewritten
to the compliance-policy wording instead of the generic error wording. -/
theorem policy_denied_error_rewording (cfg : PrivyConfig)
    (w t v msg m : String) (dataOpt : Option String)
    (hw : (w == "") = false) (ht : (t == "") = false) (hv : (v == "") = false)
    (hmsg : (msg == "") = false)
    (hpol : (jsIncludes m "policy" || jsIncludes m "denied") = true) :
    sendTransactionHandler (.ok cfg) (some w) (some t) (some v) dataOpt (.error m)
      = { success := false
        , response := "Transaction failed due to policy restrictions: " ++ m ++ ". This transaction may involve tokens or addresses that aren\x27t allowed by your wallet\x27s compliance policies." }
    ∧ signTransactionHandler (.ok cfg) (some w) (some msg) (.error m)
      = { success := false
        , response := "Signing failed due to policy restrictions: " ++ m ++ ". This operation may not be allowed by your wallet\x27s compliance policies." } := by
  constructor
  · simp [sendTransactionHandler, sendTxErrorResult, hw, ht, hv, hpol]
  · simp [signTransactionHandler, signTxErrorResult, hw, hmsg, hpol]

/-- Witness for C8: a concrete remote error mentioning "denied" is rewritten to
the compliance-policy wording by both handlers. -/
theorem policy_denied_error_rewording_witness :
    ("w1" == "") = false
    ∧ (jsIncludes "denied by rules" "policy" || jsIncludes "denied by rules" "denied") = true
    ∧ sendTransactionHandler (.ok sampleConfig) (some "w1") (some "0xA") (some "1") none (.error "denied by rules")
      = { success := false
        , response := "Transaction failed due to policy restrictions: denied by rules. This transaction may involve tokens or addresses that aren\x27t allowed by your wallet\x27s compliance policies." }
    ∧ signTransactionHandler (.ok sampleConfig) (some "w1") (some "hello") (.error "denied by rules")
      = { success := false
        , response := "Signing failed due to policy restrictions: denied by rules. This operation may not be allowed by your wallet\x27s compliance policies." } := by
  have h := policy_denied_error_rewording sampleConfig "w1" "0xA" "1" "hello" "denied by rules" none
    (by decide) (by decide) (by decide) (by decide) (by decide)
  exact ⟨by decide, by decide, h.1, h.2⟩

/-- Claim C9: when the PRIVY_CREATE_WALLET handler is invoked with a chainType
option that lower-cases to "monad" (any letter case), the wallet-creation
request it issues to the wallet client carries chain_type "ethereum", while the
success response text still describes the wallet as a Monad wallet. -/
theorem createWallet_monad_uses_ethereum (cfg : PrivyConfig) (dpid s : String)
    (pidOpt : Option String) (remote : Except String PrivyCreateWalletResponse)
    (w : PrivyCreateWalletResponse) (hs : jsToLowerCase s = "monad") :
    Option.map (fun r => r.chain_type) (createWalletHandler (.ok cfg) dpid (some s) pidOpt remote).1
      = some "ethereum"
    ∧ (createWalletHandler (.ok cfg) dpid (some s) pidOpt (.ok w)).2
        = { success := true
          , response := "Successfully created a new Monad wallet with address: " ++ w.address ++ ". This wallet is compatible with the Monad blockchain." }
    ∧ jsIncludes ("Successfully created a new Monad wallet with address: " ++ w.address ++ ". This wallet is compatible with the Monad blockchain.") "Monad" = true := by
  refine ⟨?_, ?_, ?_⟩
  · cases remote <;> simp [createWalletHandler, hs]
  · simp [createWalletHandler, hs]
  · have h1 : jsIncludes "Successfully created a new Monad wallet with address: " "Monad" = true := by decide
    exact jsIncludes_append _ _ _ (jsIncludes_append _ _ _ h1)

/-- Witness for C9 with the mixed-case option "MoNaD". -/
theorem createWallet_monad_uses_ethereum_witness :
    jsToLowerCase "MoNaD" = "monad"
    ∧ Option.map (fun r => r.chain_type)
        (createWalletHandler (.ok sampleConfig) "" (some "MoNaD") none (.ok sampleWallet)).1
      = some "ethereum"
    ∧ (createWalletHandler (.ok sampleConfig) "" (some "MoNaD") none (.ok sampleWallet)).2
        = { success := true
          , response := "Successfully created a new Monad wallet with address: " ++ sampleWallet.address ++ ". This wallet is compatible with the Monad blockchain." } := by
  have h := createWallet_monad_uses_ethereum sampleConfig "" "MoNaD" none (.ok sampleWallet)
    sampleWallet (by decide)
  exact ⟨by decide, h.1, h.2.1⟩

/-- Claim C10 counterexample: for the invocation with chainType option `""` --
whose lower-casing "" is not one of "ethereum", "solana", "monad" -- the
handler does not reject: the empty string is falsy, so it falls back to the
default chain "ethereum", issues a wallet-creation request and reports
success. -/
theorem createWallet_emptyChainType_counterexample :
    ¬(jsToLowerCase "" = "ethereum" ∨ jsToLowerCase "" = "solana" ∨ jsToLowerCase "" = "monad")
    ∧ (createWalletHandler (.ok sampleConfig) "" (some "") none (.ok sampleWallet)).1
        = some { chain_type := "ethereum", policy_ids := none }
    ∧ (createWalletHandler (.ok sampleConfig) "" (some "") none (.ok sampleWallet)).2.success = true :=
  ⟨by decide, by decide, by decide⟩

/-- Claim C10 (amended): when the chainType option lower-cases to a NON-EMPTY
string that is not one of "ethereum", "solana", "monad", the handler (having
passed config validation) returns success false with the message naming the
supported chain types, and no wallet-creation request is issued to the remote
client. -/
theorem createWallet_invalidChainType_rejected (cfg : PrivyConfig)
    (dpid s : String) (pidOpt : Option String)
    (remote : Except String PrivyCreateWalletResponse)
    (hne : (jsToLowerCase s == "") = false)
    (h1 : (jsToLowerCase s == "ethereum") = false)
    (h2 : (jsToLowerCase s == "solana") = false)
    (h3 : (jsToLowerCase s == "monad") = false) :
    createWalletHandler (.ok cfg) dpid (some s) pidOpt remote
      = (none, { success := false
               , response := "Invalid chain type. Supported chain types are: ethereum, solana, monad." }) := by
  simp [createWalletHandler, hne, h1, h2, h3]

/-- Witness for the amended C10 with the chainType option "Bitcoin". -/
theorem createWallet_invalidChainType_rejected_witness :
    (jsToLowerCase "Bitcoin" == "") = false
    ∧ (jsToLowerCase "Bitcoin" == "ethereum") = false
    ∧ createWalletHandler (.ok sampleConfig) "" (some "Bitcoin") none (.ok sampleWallet)
      = (none, { success := false
               , response := "Invalid chain type. Supported chain types are: ethereum, solana, monad." }) :=
  ⟨by decide, by decide,
   createWallet_invalidChainType_rejected sampleConfig "" "Bitcoin" none (.ok sampleWallet)
     (by decide) (by decide) (by decide) (by decide)⟩
